import Mathlib

/-!
Shallow embedding of the real-time anomaly detection engine of the
traffic-dashboard backend (source: ml-service/features/anomaly_detection.py,
class AnomalyDetector), together with theorems settling the frozen claims
about it.

Modelling conventions, stated once here:

* Python numbers (floats and ints) are modelled as rationals; `round(x, 3)`
  is modelled exactly as round-half-to-even at three decimals (`round3`).
* A Python dict event is modelled by the `Event` structure: a field holds
  `none` when the key is absent (so `event.get(k, d)` is `Option.getD` and
  the truthiness test `if event.get(k):` is `truthyQ` for numbers and an
  emptiness test for strings).
* Code that can raise an uncaught exception is modelled in `Option`:
  `none` is the raised exception escaping to the caller.
* The Haversine distance `_distance` computes with transcendental floating
  point operations (sin, cos, atan2, sqrt).  Every claim holds for every
  value that computation could return, so the detector is parametrised by
  an arbitrary distance function `dist`; theorems quantify over it.
* The sklearn scaler/IsolationForest pair is external library state.  It is
  modelled as one opaque pipeline `List Q -> Option (Bool x Q)` taking the
  feature vector to `(prediction == -1, score_samples value)`, with `none`
  for an exception raised by scaling or prediction (the code swallows it).
  `hasattr`/`None`-model cases are the `none` pipeline.  Training installs
  a pipeline produced by an opaque `fitPipe` parameter (the sklearn fit).
* Wall-clock time (`datetime.now`) is the parameter `now` in epoch seconds,
  and `datetime.fromisoformat` is the parameter `parseT` (epoch seconds) or
  `parseHMW` (hour, weekday, minute); no claim depends on their values.
* Python `str.lower` is modelled as character-wise ASCII lowering.
-/

/-- An ingested roadway event: the fields of the Python event dict that the
anomaly detector reads.  `none` models an absent key. -/
structure Event where
  id : Option String
  state : Option String
  event_type : Option String
  latitude : Option ℚ
  longitude : Option ℚ
  timestamp : Option String
deriving DecidableEq

/-- Truthiness of `event.get(key)` for a numeric field: present and nonzero. -/
def truthyQ : Option ℚ → Bool
  | none => false
  | some q => decide (q ≠ 0)

/-- Truthiness of `event.get('timestamp')`: present and a nonempty string. -/
def tsField (e : Event) : Option String :=
  match e.timestamp with
  | some s => if s = "" then none else some s
  | none => none

/-- Python `str.lower` restricted to its ASCII behaviour. -/
def lowerStr (s : String) : String := String.mk (s.data.map Char.toLower)

/-- Round-half-to-even to an integer, the semantics of Python `round`. -/
def roundHalfEven (q : ℚ) : ℤ :=
  if q - ⌊q⌋ < 1/2 then ⌊q⌋
  else if 1/2 < q - ⌊q⌋ then ⌊q⌋ + 1
  else if ⌊q⌋ % 2 = 0 then ⌊q⌋ else ⌊q⌋ + 1

/-- Python `round(x, 3)`. -/
def round3 (q : ℚ) : ℚ := (roundHalfEven (q * 1000) : ℚ) / 1000

/-- Minimum of a nonempty list, Python `min`; the head argument is the
first element. -/
def listMin (x : ℚ) (xs : List ℚ) : ℚ := xs.foldl min x

/-- Maximum of a nonempty list, Python `max`. -/
def listMax (x : ℚ) (xs : List ℚ) : ℚ := xs.foldl max x

/-- Embeds `AnomalyDetector._extract_features`.  Returns `none` when the Python
code raises: `min()` over an empty generator, which happens exactly when
the context is nonempty but no context event has a truthy latitude. -/
def extract_features (dist : Event → Event → ℚ)
    (parseHMW : String → Option (ℤ × ℤ × ℤ))
    (event : Event) (context : List Event) : Option (List ℚ) :=
  let tPart : List ℚ :=
    match tsField event with
    | some s =>
      match parseHMW s with
      | some hwm => [(hwm.1 : ℚ), (hwm.2.1 : ℚ), (hwm.2.2 : ℚ)]
      | none => [0, 0, 0]
    | none => [0, 0, 0]
  let etype := lowerStr (event.event_type.getD "")
  let oneHot : List ℚ :=
    [if "construction" = etype then 1 else 0,
     if "incident" = etype then 1 else 0,
     if "weather" = etype then 1 else 0,
     if "special_event" = etype then 1 else 0]
  let nearby : ℚ := ((context.filter (fun c => decide (dist event c < 10))).length : ℚ)
  let base : List ℚ := [event.latitude.getD 0, event.longitude.getD 0] ++ tPart ++ oneHot
  if context = [] then some (base ++ [999, nearby])
  else
    match (context.filter (fun c => truthyQ c.latitude)).map (fun c => dist event c) with
    | [] => none
    | d :: ds => some (base ++ [listMin d ds, nearby])

/-- The coordinate pairs of `recent[-5:]` are all identical
(`len(set(coords)) == 1`); only called on a list of five elements. -/
def coords_all_equal : List Event → Bool
  | [] => true
  | e :: rest =>
    rest.all (fun x => decide (x.latitude = e.latitude) && decide (x.longitude = e.longitude))

/-- Python `l[-n:]`. -/
def lastN (n : ℕ) (l : List Event) : List Event := l.drop (l.length - n)

/-- Embeds `AnomalyDetector._statistical_detection`: hard-coded rules evaluated in
order, first match returns.  An unparsable timestamp (`parseT` returning
`none`) makes the timestamp rules not apply. -/
def statistical_detection (parseT : String → Option ℚ) (now : ℚ)
    (event : Event) (recent : List Event) : Bool × ℚ × String :=
  let lat := event.latitude.getD 0
  let lon := event.longitude.getD 0
  if lat = 0 ∧ lon = 0 then (true, 1, "zero_coordinates")
  else if ¬ (24 ≤ lat ∧ lat ≤ 50 ∧ -125 ≤ lon ∧ lon ≤ -65) then
    (true, 1, "invalid_coordinates")
  else if 5 ≤ recent.length ∧ coords_all_equal (lastN 5 recent) = true then
    (true, 9/10, "stuck_api")
  else
    match tsField event with
    | none => (false, 0, "none")
    | some s =>
      match parseT s with
      | none => (false, 0, "none")
      | some ts =>
        if now + 3600 < ts then (true, 19/20, "future_timestamp")
        else if 168 < (now - ts) / 3600 then (true, 4/5, "stale_event")
        else (false, 0, "none")

/-- A per-state learned baseline: the three accumulating lists created on
first sight of the state, and the three statistics keys written by the
statistics pass of `train` (absent before it). -/
structure Baseline where
  events : List Event
  lats : List ℚ
  lons : List ℚ
  avg_count : Option ℕ
  lat_range : Option (ℚ × ℚ)
  lon_range : Option (ℚ × ℚ)
deriving DecidableEq

/-- The baseline dict entry `{'events': [], 'lats': [], 'lons': []}`. -/
def emptyBaseline : Baseline := ⟨[], [], [], none, none, none⟩

/-- Association-list lookup, Python `dict[key]` on string keys. -/
def lookupBl (s : String) : List (String × Baseline) → Option Baseline
  | [] => none
  | (k, b) :: rest => if k = s then some b else lookupBl s rest

/-- Embeds `AnomalyDetector._pattern_detection`. -/
def pattern_detection (baselines : List (String × Baseline))
    (event : Event) (recent : List Event) : Bool × ℚ × String :=
  let fromBaseline : Option (Bool × ℚ × String) :=
    match event.state with
    | none => none
    | some s =>
      match lookupBl s baselines with
      | none => none
      | some baseline =>
        let currentCount := (recent.filter (fun e => decide (e.state = event.state))).length
        if baseline.avg_count.getD 10 * 3 < currentCount then some (true, 7/10, "event_spike")
        else
          let lr := baseline.lat_range.getD (0, 90)
          let sr := baseline.lon_range.getD (-180, 0)
          let lat := event.latitude.getD 0
          let lon := event.longitude.getD 0
          if ¬ (lr.1 ≤ lat ∧ lat ≤ lr.2 ∧ sr.1 ≤ lon ∧ lon ≤ sr.2) then
            some (true, 3/4, "out_of_state_bounds")
          else none
  match fromBaseline with
  | some r => r
  | none =>
    match event.id with
    | none => (false, 0, "none")
    | some id0 =>
      if id0 = "" then (false, 0, "none")
      else
        match recent.filter (fun e => decide (e.id = some id0)) with
        | [] => (false, 0, "none")
        | d :: _ => if d ≠ event then (true, 17/20, "duplicate_id_mismatch") else (false, 0, "none")

/-- The ML detection step of `detect` (method 2): `none` pipeline models
sklearn unavailable / model absent / no `predict` attribute; a pipeline
returning `none` models the swallowed scaling or prediction exception.
Returns `(ml_anomaly, ml_score)`; the score is the absolute value of the
raw `score_samples` output. -/
def mlEval (m : Option (List ℚ → Option (Bool × ℚ))) (fs : List ℚ) : Bool × ℚ :=
  match m with
  | none => (false, 0)
  | some pipe =>
    match pipe fs with
    | none => (false, 0)
    | some pr => (pr.1, |pr.2|)

/-- The in-memory state of an `AnomalyDetector`: the scaler/model pipeline
and the per-state baselines (insertion-ordered, as a Python dict).  The
`event_history` deque of the source is created but never read or written
by any method, so it is omitted. -/
structure DetectorState where
  model : Option (List ℚ → Option (Bool × ℚ))
  state_baselines : List (String × Baseline)

/-- String of `event.get(key)` for an optional string, Python `str(None)`
being `"None"`. -/
def optStr : Option String → String
  | none => "None"
  | some s => s

/-- String of `event.get(key)` for an optional number. -/
def optQStr : Option ℚ → String
  | none => "None"
  | some q => toString q

/-- Embeds `AnomalyDetector._explain_anomaly`: fixed lookup table keyed by type. -/
def explain_anomaly (anomalyType : String) (event : Event) : String :=
  if anomalyType = "zero_coordinates" then
    "Event coordinates (0, 0) indicate sensor failure for " ++ event.state.getD "unknown" ++ " API"
  else if anomalyType = "invalid_coordinates" then
    "Coordinates (" ++ optQStr event.latitude ++ ", " ++ optQStr event.longitude ++ ") outside valid US range"
  else if anomalyType = "stuck_api" then
    "API returning identical data - possible caching issue or service outage"
  else if anomalyType = "future_timestamp" then
    "Event timestamp " ++ optStr event.timestamp ++ " is in the future"
  else if anomalyType = "stale_event" then
    "Event is over 1 week old - may be incorrectly included in feed"
  else if anomalyType = "event_spike" then
    "Unusual spike in events from " ++ optStr event.state ++ " - possible data corruption"
  else if anomalyType = "out_of_state_bounds" then
    "Event location doesn\x27t match state " ++ optStr event.state ++ " geography"
  else if anomalyType = "duplicate_id_mismatch" then
    "Event ID " ++ optStr event.id ++ " reused with different data"
  else "Anomaly detected by ML model"

/-- A fallback suggestion dict; fields that a given branch does not write
are `none`.  In the interpolated branch `none` coordinates model the
`np.mean` of an empty list (NaN). -/
structure Fallback where
  source : String
  latitude : Option ℚ
  longitude : Option ℚ
  action : Option String
  confidence : ℚ
deriving DecidableEq

/-- Mean of a list of rationals; `none` models `np.mean([])` (NaN). -/
def meanOpt : List ℚ → Option ℚ
  | [] => none
  | x :: xs => some ((x :: xs).sum / (x :: xs).length)

/-- Embeds `AnomalyDetector._generate_fallback`.  Returns `none` when the Python
code raises: looking up `similar[0]['latitude']` or `['longitude']` on an
event that passed the `!= 0` filters with the key absent (KeyError). -/
def generate_fallback (dist : Event → Event → ℚ) (anomalous_event : Event)
    (recent_events : List Event) (anomaly_type : String) : Option Fallback :=
  let state := anomalous_event.state
  let defaultBranch : Option Fallback :=
    match recent_events.filter
        (fun e => decide (e.state = state) && decide (dist e anomalous_event < 50)) with
    | [] => some ⟨"none_available", none, none, some "manual_review_required", 0⟩
    | nb :: nbs =>
      let nearby := nb :: nbs
      let lats := (nearby.filter (fun e => truthyQ e.latitude)).map (fun e => e.latitude.getD 0)
      let lons := (nearby.filter (fun e => truthyQ e.longitude)).map (fun e => e.longitude.getD 0)
      some ⟨"interpolated", meanOpt lats, meanOpt lons, none, 1/2⟩
  if anomaly_type = "zero_coordinates" then
    match recent_events.reverse.filter
        (fun e => decide (e.state = state) && decide (e.latitude ≠ some 0)
          && decide (e.longitude ≠ some 0)) with
    | [] => defaultBranch
    | sim :: _ =>
      match sim.latitude, sim.longitude with
      | some la, some lo => some ⟨"cached_coordinates", some la, some lo, none, 3/5⟩
      | _, _ => none
  else if anomaly_type = "stuck_api" then
    some ⟨"skip_update", none, none, some "retain_previous_data", 4/5⟩
  else if anomaly_type = "stale_event" then
    some ⟨"filtered_out", none, none, some "remove_from_active_events", 9/10⟩
  else defaultBranch

/-- The dict returned by `AnomalyDetector.detect`: the three method scores
of the `scores` entry are the fields `statistical`, `ml`, `pattern`. -/
structure Verdict where
  is_anomaly : Bool
  score : ℚ
  type : String
  explanation : String
  fallback : Option Fallback
  statistical : ℚ
  ml : ℚ
  pattern : ℚ
  confidence : ℚ
deriving DecidableEq

/-- Body of `AnomalyDetector.detect` after the feature extraction of its
line 56 (the three detection methods, the fusion, and the fallback
generation); returns `none` when fallback generation raises. -/
def detect_core (dist : Event → Event → ℚ) (parseT : String → Option ℚ) (now : ℚ)
    (st : DetectorState) (current_event : Event) (recent_events : List Event)
    (features : List ℚ) : Option Verdict :=
  let stat := statistical_detection parseT now current_event recent_events
  let ml := mlEval st.model features
  let pat := pattern_detection st.state_baselines current_event recent_events
  let isAnomaly := stat.1 || ml.1 || pat.1
  let anomalyScore := max stat.2.1 (max ml.2 pat.2.1)
  let anomalyType :=
    if stat.1 then stat.2.2
    else if pat.1 then pat.2.2
    else if ml.1 then "ml_detected"
    else "none"
  let explanation :=
    if stat.1 then explain_anomaly stat.2.2 current_event
    else if pat.1 then explain_anomaly pat.2.2 current_event
    else if ml.1 then "Event deviates from learned normal patterns"
    else ""
  if isAnomaly then
    match generate_fallback dist current_event recent_events anomalyType with
    | none => none
    | some fb =>
      some ⟨true, round3 anomalyScore, anomalyType, explanation, some fb,
        stat.2.1, ml.2, pat.2.1, round3 anomalyScore⟩
  else
    some ⟨false, round3 anomalyScore, anomalyType, explanation, none,
      stat.2.1, ml.2, pat.2.1, round3 anomalyScore⟩

/-- Embeds `AnomalyDetector.detect`.  Returns `none` when the Python code
raises (from feature extraction or fallback generation); detection reads
the state and never writes it, which the type of this function records. -/
def detect (dist : Event → Event → ℚ) (parseT : String → Option ℚ)
    (parseHMW : String → Option (ℤ × ℤ × ℤ)) (now : ℚ)
    (st : DetectorState) (current_event : Event) (recent_events : List Event) :
    Option Verdict :=
  match extract_features dist parseHMW current_event recent_events with
  | none => none
  | some features => detect_core dist parseT now st current_event recent_events features

/-- Appending one event to one baseline: the three accumulating lists grow,
the statistics keys are left as they are. -/
def addToBaseline (b : Baseline) (e : Event) : Baseline :=
  { b with
    events := b.events ++ [e]
    lats := if truthyQ e.latitude then b.lats ++ [e.latitude.getD 0] else b.lats
    lons := if truthyQ e.longitude then b.lons ++ [e.longitude.getD 0] else b.lons }

/-- Insert-or-update for the baselines dict: a new state key is appended at
the end (dict insertion order), an existing one is updated in place. -/
def addKey : List (String × Baseline) → String → Event → List (String × Baseline)
  | [], s, e => [(s, addToBaseline emptyBaseline e)]
  | (k, b) :: rest, s, e =>
    if k = s then (k, addToBaseline b e) :: rest else (k, b) :: addKey rest s e

/-- The per-event body of the baseline-building loop of `train`: events
whose `state` is absent or falsy (empty) are skipped. -/
def addEventB (bl : List (String × Baseline)) (e : Event) : List (String × Baseline) :=
  match e.state with
  | none => bl
  | some s => if s = "" then bl else addKey bl s e

/-- The statistics pass of `train` over one baseline: `avg_count` becomes
the accumulated event count, the ranges become min/max of the accumulated
coordinate lists when those are nonempty. -/
def statBaseline (b : Baseline) : Baseline :=
  { b with
    avg_count := some b.events.length
    lat_range :=
      match b.lats with
      | [] => b.lat_range
      | x :: xs => some (listMin x xs, listMax x xs)
    lon_range :=
      match b.lons with
      | [] => b.lon_range
      | x :: xs => some (listMin x xs, listMax x xs) }

/-- The statistics pass of `train` over the whole baselines dict. -/
def computeStats (bl : List (String × Baseline)) : List (String × Baseline) :=
  bl.map (fun p => (p.1, statBaseline p.2))

/-- The result dict of `AnomalyDetector.train`. -/
inductive TrainResult
  | err (msg : String)
  | ok (training_samples states_profiled : ℕ) (model_type : String)
deriving DecidableEq

/-- Embeds `AnomalyDetector.train`.  `fitPipe` is the opaque sklearn scaler/model
fit; `sklearnAvailable` is the import-time flag.  The outer `none` models
an exception escaping `train` (feature extraction raising), which happens
before any state is mutated; otherwise the new state and the returned dict
are given.  `_save_model` is external persistence and outside the state
modelled here. -/
def train (dist : Event → Event → ℚ) (parseHMW : String → Option (ℤ × ℤ × ℤ))
    (fitPipe : List (List ℚ) → List ℚ → Option (Bool × ℚ)) (sklearnAvailable : Bool)
    (st : DetectorState) (normal_events : List Event) :
    Option (DetectorState × TrainResult) :=
  if ¬ sklearnAvailable ∨ normal_events = [] then
    some (st, .err "Training requires sklearn and training data")
  else
    match normal_events.mapM (fun e => extract_features dist parseHMW e normal_events) with
    | none => none
    | some featuresList =>
      let bl := computeStats (normal_events.foldl addEventB st.state_baselines)
      some (⟨some (fitPipe featuresList), bl⟩,
        .ok normal_events.length bl.length "IsolationForest")

/-- Running several `train` calls in sequence, keeping the state; `none`
as soon as one raises. -/
def trainSeq (dist : Event → Event → ℚ) (parseHMW : String → Option (ℤ × ℤ × ℤ))
    (fitPipe : List (List ℚ) → List ℚ → Option (Bool × ℚ)) (sklearnAvailable : Bool)
    (st : DetectorState) : List (List Event) → Option DetectorState
  | [] => some st
  | es :: rest =>
    match train dist parseHMW fitPipe sklearnAvailable st es with
    | none => none
    | some (st2, _) => trainSeq dist parseHMW fitPipe sklearnAvailable st2 rest

/-- A concrete distance function for witnesses and counterexamples; all
results quantifying over `dist` hold for it. -/
def dist0 : Event → Event → ℚ := fun _ _ => 0

/-- A concrete timestamp parser that never parses. -/
def parseT0 : String → Option ℚ := fun _ => none

/-- A concrete hour/weekday/minute parser that never parses. -/
def parseHMW0 : String → Option (ℤ × ℤ × ℤ) := fun _ => none

/-- A pipeline that always raises: the freshly constructed, unfitted
scaler/IsolationForest pair (`transform` raises before fitting). -/
def pipeFail : List ℚ → Option (Bool × ℚ) := fun _ => none

/-- The state of a freshly constructed `AnomalyDetector` with no stored
model on disk: an unfitted model object is present, baselines are empty. -/
def freshState : DetectorState := ⟨some pipeFail, []⟩

/-- A concrete opaque fit for witnesses and counterexamples. -/
def fit0 : List (List ℚ) → List ℚ → Option (Bool × ℚ) := fun _ _ => none

/-- The external sklearn contract on a stored pipeline: `score_samples` of
an isolation forest lies in `[-1, 0]`, so the raw outlier score has
absolute value at most 1.  `detect` itself never enforces this. -/
def MlBounded (m : Option (List ℚ → Option (Bool × ℚ))) : Prop :=
  ∀ pipe fs pr, m = some pipe → pipe fs = some pr → |pr.2| ≤ 1

/-- A baseline with the three statistics keys removed, used to state that
the baseline-building loop of `train` reads and writes only the three
accumulating lists. -/
def stripStats (b : Baseline) : Baseline := ⟨b.events, b.lats, b.lons, none, none, none⟩

/-- Pointwise `stripStats` over the baselines dict. -/
def stripAll (bl : List (String × Baseline)) : List (String × Baseline) :=
  bl.map (fun p => (p.1, stripStats p.2))

/-- Invariant of every reachable baselines dict: a range key is only ever
written when the corresponding coordinate list is nonempty, and that list
never shrinks. -/
def RangeInv (bl : List (String × Baseline)) : Prop :=
  ∀ p ∈ bl, (p.2.lats = [] → p.2.lat_range = none) ∧ (p.2.lons = [] → p.2.lon_range = none)

/-- An event with every key absent. -/
def evBlank : Event := ⟨none, none, none, none, none, none⟩

/-- An event sitting exactly at the origin. -/
def evZero : Event := ⟨none, none, none, some 0, some 0, none⟩

/-- An event with valid continental-US coordinates. -/
def ev40 : Event := ⟨none, none, none, some 40, some (-90), none⟩

/-- An event far outside the latitude band but not at the origin. -/
def ev60 : Event := ⟨none, none, none, some 60, some (-90), none⟩

/-- An Iowa event at the origin. -/
def evIAzero : Event := ⟨none, some "IA", none, some 0, some 0, none⟩

/-- An Iowa event with both coordinate keys absent. -/
def evIAnone : Event := ⟨none, some "IA", none, none, none, none⟩

/-- A Texas event with valid coordinates. -/
def evTX : Event := ⟨none, some "TX", none, some 40, some (-90), none⟩

/-- A Texas event with both coordinate keys absent. -/
def evTXnone : Event := ⟨none, some "TX", none, none, none, none⟩

/-- A Texas event with valid coordinates, used as the current event of a
call that raises inside feature extraction. -/
def evMid : Event := ⟨none, some "TX", none, some 30, some (-100), none⟩

/-- First Iowa training event. -/
def evA : Event := ⟨none, some "IA", none, some 42, some (-93), none⟩

/-- Second Iowa training event. -/
def evB : Event := ⟨none, some "IA", none, some 41, some (-94), none⟩

/-- A stored pipeline returning prediction 1 and raw score -1999/2000, a
value inside the isolation-forest score range. -/
def pipeC1 : List ℚ → Option (Bool × ℚ) := fun _ => some (false, -(1999/2000))

/-- A detector state holding `pipeC1` and no baselines. -/
def stateC1 : DetectorState := ⟨some pipeC1, []⟩

/-- The feature-extraction vector of a zero-coordinate event with an empty
context window and no timestamp. -/
def fsZero : List ℚ := [0, 0, 0, 0, 0, 0, 0, 0, 0, 999, 0]

/-- The fallback that `detect` produces for `evZero` with an empty window. -/
def fbZero : Fallback := ⟨"none_available", none, none, some "manual_review_required", 0⟩

/-- The verdict that `detect` produces for `evZero` with an empty window. -/
def vZero : Verdict := ⟨true, 1, "zero_coordinates",
  "Event coordinates (0, 0) indicate sensor failure for unknown API", some fbZero,
  1, 0, 0, 1⟩

/-- The fallback that `detect` produces for `ev60` with an empty window. -/
def fbInv : Fallback := ⟨"none_available", none, none, some "manual_review_required", 0⟩

/-- The verdict that `detect` produces for `ev60` with an empty window. -/
def vInv : Verdict := ⟨true, 1, "invalid_coordinates",
  explain_anomaly "invalid_coordinates" ev60, some fbInv, 1, 0, 0, 1⟩

/-- The feature-extraction vector of `ev40` with an empty context window. -/
def fsC4 : List ℚ := [40, -90, 0, 0, 0, 0, 0, 0, 0, 999, 0]

/-- The verdict of `detect` on `ev40`, empty window, state `stateC1`: no
detector fires, yet the ml score 1999/2000 rounds the fused score to 1. -/
def vC4 : Verdict := ⟨false, 1, "none", "", none, 0, 1999/2000, 0, 1⟩

/-- Feature vector of evA in the context [evA]. -/
def fsA1 : List ℚ := [42, -93, 0, 0, 0, 0, 0, 0, 0, 0, 1]

/-- Feature vector of evB in the context [evB]. -/
def fsB1 : List ℚ := [41, -94, 0, 0, 0, 0, 0, 0, 0, 0, 1]

/-- Feature vector of evA in the context [evA, evB]. -/
def fsA2 : List ℚ := [42, -93, 0, 0, 0, 0, 0, 0, 0, 0, 2]

/-- Feature vector of evB in the context [evA, evB]. -/
def fsB2 : List ℚ := [41, -94, 0, 0, 0, 0, 0, 0, 0, 0, 2]

/-- The Iowa baseline after training on [evA] only. -/
def blA : List (String × Baseline) :=
  [("IA", ⟨[evA], [42], [-93], some 1, some (42, 42), some (-93, -93)⟩)]

/-- The Iowa baseline accumulated over [evA] and then [evB]. -/
def blAB : List (String × Baseline) :=
  [("IA", ⟨[evA, evB], [42, 41], [-93, -94], some 2, some (41, 42), some (-94, -93)⟩)]

/-- State after the first training call of the witness. -/
def stW1 : DetectorState := ⟨some (fit0 [fsA1]), blA⟩

/-- State after the second training call of the witness. -/
def stW2 : DetectorState := ⟨some (fit0 [fsB1]), blAB⟩

/-- State after the single concatenated training call of the witness. -/
def stW3 : DetectorState := ⟨some (fit0 [fsA2, fsB2]), blAB⟩

theorem round3_one : round3 1 = 1 := by
  have h : ((1:ℚ) * 1000) = ((1000:ℤ) : ℚ) := by norm_num
  unfold round3 roundHalfEven
  rw [h, Int.floor_intCast]
  norm_num

theorem absHelp : |(1999:ℚ)/2000| = 1999/2000 := abs_of_pos (by norm_num)

theorem floorHelp : ⌊((1999:ℚ)/2000) * 1000⌋ = 999 := by
  rw [show ((1999:ℚ)/2000) * 1000 = 1999/2 by norm_num, Int.floor_eq_iff]
  norm_num

theorem fractHelp : Int.fract (((1999:ℚ)/2000) * 1000) = 1/2 := by
  rw [Int.fract, floorHelp]; norm_num

theorem mlEval_snd_nonneg (m : Option (List ℚ → Option (Bool × ℚ))) (fs : List ℚ) :
    0 ≤ (mlEval m fs).2 := by
  rcases m with _ | pipe
  · simp [mlEval]
  · rcases h : pipe fs with _ | pr
    · simp [mlEval, h]
    · simp [mlEval, h]

theorem mlEval_snd_le_one (m : Option (List ℚ → Option (Bool × ℚ))) (fs : List ℚ)
    (hb : MlBounded m) : (mlEval m fs).2 ≤ 1 := by
  rcases m with _ | pipe
  · simp [mlEval]
  · rcases h : pipe fs with _ | pr
    · simp [mlEval, h]
    · simp [mlEval, h]
      exact hb pipe fs pr rfl h

theorem pattern_snd_bounds (baselines : List (String × Baseline)) (e : Event)
    (recent : List Event) :
    0 ≤ (pattern_detection baselines e recent).2.1 ∧
      (pattern_detection baselines e recent).2.1 ≤ 17/20 := by
  unfold pattern_detection
  constructor
  all_goals repeat' split
  all_goals try norm_num
  all_goals repeat' split
  all_goals try norm_num
  all_goals (rename_i r heq; split_ifs at heq)
  all_goals injection heq with h2
  all_goals (subst h2; norm_num)

theorem stat_at_zero (parseT : String → Option ℚ) (now : ℚ) (e : Event)
    (recent : List Event) (h1 : e.latitude.getD 0 = 0) (h2 : e.longitude.getD 0 = 0) :
    statistical_detection parseT now e recent = (true, 1, "zero_coordinates") := by
  unfold statistical_detection
  rw [h1, h2]
  norm_num

theorem stat_at_invalid (parseT : String → Option ℚ) (now : ℚ) (e : Event)
    (recent : List Event)
    (h0 : ¬ (e.latitude.getD 0 = 0 ∧ e.longitude.getD 0 = 0))
    (hout : ¬ (24 ≤ e.latitude.getD 0 ∧ e.latitude.getD 0 ≤ 50 ∧
      -125 ≤ e.longitude.getD 0 ∧ e.longitude.getD 0 ≤ -65)) :
    statistical_detection parseT now e recent = (true, 1, "invalid_coordinates") := by
  unfold statistical_detection
  rw [if_neg h0, if_pos hout]

theorem generate_fallback_sound (dist : Event → Event → ℚ) (e : Event)
    (ctx : List Event) (t : String) (fb : Fallback)
    (h : generate_fallback dist e ctx t = some fb) :
    (fb.source = "cached_coordinates" ∨ fb.source = "skip_update" ∨
     fb.source = "filtered_out" ∨ fb.source = "interpolated" ∨
     fb.source = "none_available") ∧ 0 ≤ fb.confidence ∧ fb.confidence ≤ 1 := by
  simp only [generate_fallback] at h
  repeat' split at h
  all_goals first
    | exact Option.noConfusion h
    | (injection h with h2; subst h2; norm_num)

theorem detect_core_spec (dist : Event → Event → ℚ) (parseT : String → Option ℚ)
    (now : ℚ) (st : DetectorState) (e : Event) (ctx : List Event)
    (fs : List ℚ) (v : Verdict)
    (hv : detect_core dist parseT now st e ctx fs = some v) :
    v.statistical = (statistical_detection parseT now e ctx).2.1 ∧
    v.ml = (mlEval st.model fs).2 ∧
    v.pattern = (pattern_detection st.state_baselines e ctx).2.1 ∧
    v.is_anomaly = ((statistical_detection parseT now e ctx).1 || (mlEval st.model fs).1
      || (pattern_detection st.state_baselines e ctx).1) ∧
    v.score = round3 (max (statistical_detection parseT now e ctx).2.1
      (max (mlEval st.model fs).2 (pattern_detection st.state_baselines e ctx).2.1)) ∧
    v.confidence = v.score ∧
    v.type = (if (statistical_detection parseT now e ctx).1 = true then
        (statistical_detection parseT now e ctx).2.2
      else if (pattern_detection st.state_baselines e ctx).1 = true then
        (pattern_detection st.state_baselines e ctx).2.2
      else if (mlEval st.model fs).1 = true then "ml_detected" else "none") ∧
    (v.is_anomaly = false → v.fallback = none) ∧
    (v.is_anomaly = true → ∃ fb, v.fallback = some fb ∧
      generate_fallback dist e ctx v.type = some fb) := by
  simp only [detect_core] at hv
  split at hv
  · split at hv
    · exact Option.noConfusion hv
    · injection hv with h2
      subst h2
      rename_i hcond x fb hfb
      refine ⟨rfl, rfl, rfl, hcond.symm, rfl, rfl, rfl, by simp, ?_⟩
      intro _
      exact ⟨fb, rfl, hfb⟩
  · injection hv with h2
    subst h2
    rename_i hcond
    simp only [Bool.not_eq_true] at hcond
    refine ⟨rfl, rfl, rfl, hcond.symm, rfl, rfl, rfl, fun _ => rfl, by simp⟩

theorem detect_eq_core (dist : Event → Event → ℚ) (parseT : String → Option ℚ)
    (parseHMW : String → Option (ℤ × ℤ × ℤ)) (now : ℚ) (st : DetectorState)
    (e : Event) (ctx : List Event) (fs : List ℚ)
    (hf : extract_features dist parseHMW e ctx = some fs) :
    detect dist parseT parseHMW now st e ctx = detect_core dist parseT now st e ctx fs := by
  unfold detect
  rw [hf]

/-- The fallback slot of the verdict literal that `detect_core` returns. -/
theorem detect_core_fallback_none (dist : Event → Event → ℚ) (parseT : String → Option ℚ)
    (now : ℚ) (st : DetectorState) (e : Event) (ctx : List Event)
    (fs : List ℚ) (v : Verdict)
    (hv : detect_core dist parseT now st e ctx fs = some v) :
    (v.fallback = none ↔ v.is_anomaly = false) := by
  obtain ⟨_, _, _, _, _, _, _, hno, hyes⟩ :=
    detect_core_spec dist parseT now st e ctx fs v hv
  constructor
  · intro hn
    rcases hb : v.is_anomaly with _ | _
    · rfl
    · obtain ⟨fb, hfb, _⟩ := hyes hb
      rw [hn] at hfb
      exact Option.noConfusion hfb
  · exact hno

/-- Claim C1, counterexample.  At a concrete call whose statistical rule
fires `stuck_api` with score 0.9 while the stored model scores 0.9995,
the verdict's type stays `stuck_api` (not the maximum-score method's
label) and the verdict's score is 1, the rounding of 0.9995, not the
maximum 0.9995 of the three method scores. -/
theorem detect_type_not_from_max_score :
    (detect dist0 parseT0 parseHMW0 0 stateC1 ev40 (List.replicate 5 ev40)).map Verdict.type
      = some "stuck_api" ∧
    (detect dist0 parseT0 parseHMW0 0 stateC1 ev40 (List.replicate 5 ev40)).map Verdict.score
      = some 1 ∧
    (detect dist0 parseT0 parseHMW0 0 stateC1 ev40 (List.replicate 5 ev40)).map Verdict.statistical
      = some (9/10) ∧
    (detect dist0 parseT0 parseHMW0 0 stateC1 ev40 (List.replicate 5 ev40)).map Verdict.ml
      = some (1999/2000) ∧
    (detect dist0 parseT0 parseHMW0 0 stateC1 ev40 (List.replicate 5 ev40)).map Verdict.pattern
      = some 0 ∧
    "stuck_api" ≠ "ml_detected" ∧
    (1 : ℚ) ≠ max (9/10) (max (1999/2000) 0) := by
  have h1 : max ((1999:ℚ)/2000) 0 = 1999/2000 := max_eq_left (by norm_num)
  have h2 : max ((9:ℚ)/10) ((1999:ℚ)/2000) = 1999/2000 := max_eq_right (by norm_num)
  have hmax : max ((9:ℚ)/10) (max ((1999:ℚ)/2000) 0) = 1999/2000 := by rw [h1, h2]
  refine ⟨?_, ?_, ?_, ?_, ?_, by decide, by rw [hmax]; norm_num⟩
  all_goals
    norm_num +decide [detect, detect_core, extract_features, statistical_detection,
      pattern_detection, mlEval, generate_fallback, explain_anomaly, stateC1, pipeC1,
      tsField, round3, roundHalfEven, dist0, List.filter, ev40, lookupBl,
      coords_all_equal, lastN, truthyQ, listMin, List.replicate, absHelp, floorHelp,
      fractHelp, (rfl : lowerStr "" = "")]

/-- Claim C1, amended.  For every call to `detect` that returns a verdict,
`is_anomaly` is true iff at least one of the three detectors signaled, the
verdict's score is the maximum of the three method scores rounded to three
decimals, the reported method scores are exactly the three detectors'
scores, and the type is taken from the first method that signaled in the
fixed priority statistical, then pattern, then learned - regardless of
which method produced the maximum score. -/
theorem detect_fusion_combines_methods (dist : Event → Event → ℚ)
    (parseT : String → Option ℚ) (parseHMW : String → Option (ℤ × ℤ × ℤ)) (now : ℚ)
    (st : DetectorState) (e : Event) (ctx : List Event) (fs : List ℚ) (v : Verdict)
    (hf : extract_features dist parseHMW e ctx = some fs)
    (hv : detect dist parseT parseHMW now st e ctx = some v) :
    v.is_anomaly = ((statistical_detection parseT now e ctx).1 || (mlEval st.model fs).1
      || (pattern_detection st.state_baselines e ctx).1) ∧
    v.score = round3 (max (statistical_detection parseT now e ctx).2.1
      (max (mlEval st.model fs).2 (pattern_detection st.state_baselines e ctx).2.1)) ∧
    v.statistical = (statistical_detection parseT now e ctx).2.1 ∧
    v.ml = (mlEval st.model fs).2 ∧
    v.pattern = (pattern_detection st.state_baselines e ctx).2.1 ∧
    v.type = (if (statistical_detection parseT now e ctx).1 = true then
        (statistical_detection parseT now e ctx).2.2
      else if (pattern_detection st.state_baselines e ctx).1 = true then
        (pattern_detection st.state_baselines e ctx).2.2
      else if (mlEval st.model fs).1 = true then "ml_detected" else "none") := by
  rw [detect_eq_core dist parseT parseHMW now st e ctx fs hf] at hv
  obtain ⟨h1, h2, h3, h4, h5, _, h7, _, _⟩ :=
    detect_core_spec dist parseT now st e ctx fs v hv
  exact ⟨h4, h5, h1, h2, h3, h7⟩

/-- Claim C1, witness: the amended fusion theorem applied to the concrete
zero-coordinate call with an empty context window. -/
theorem detect_fusion_combines_methods_witness :
    vZero.is_anomaly = ((statistical_detection parseT0 0 evZero []).1
      || (mlEval freshState.model fsZero).1
      || (pattern_detection freshState.state_baselines evZero []).1) ∧
    vZero.score = round3 (max (statistical_detection parseT0 0 evZero []).2.1
      (max (mlEval freshState.model fsZero).2
        (pattern_detection freshState.state_baselines evZero []).2.1)) ∧
    vZero.statistical = (statistical_detection parseT0 0 evZero []).2.1 ∧
    vZero.ml = (mlEval freshState.model fsZero).2 ∧
    vZero.pattern = (pattern_detection freshState.state_baselines evZero []).2.1 ∧
    vZero.type = (if (statistical_detection parseT0 0 evZero []).1 = true then
        (statistical_detection parseT0 0 evZero []).2.2
      else if (pattern_detection freshState.state_baselines evZero []).1 = true then
        (pattern_detection freshState.state_baselines evZero []).2.2
      else if (mlEval freshState.model fsZero).1 = true then "ml_detected" else "none") :=
  detect_fusion_combines_methods dist0 parseT0 parseHMW0 0 freshState evZero [] fsZero vZero
    (by norm_num +decide [extract_features, tsField, dist0, fsZero, evZero,
      (rfl : lowerStr "" = "")])
    (by norm_num +decide [detect, detect_core, extract_features, statistical_detection,
      pattern_detection, mlEval, generate_fallback, explain_anomaly, freshState, pipeFail,
      tsField, round3, roundHalfEven, dist0, List.filter, evZero, lookupBl, truthyQ,
      vZero, fbZero, fsZero, (rfl : lowerStr "" = "")])

/-- Claim C3, failing input.  A context window that is nonempty but whose
only event has no truthy latitude makes the generator inside `min()` empty,
so `_extract_features` raises ValueError instead of producing the 999
sentinel - the sentinel branch only runs when the window is empty - and
the exception escapes `detect`. -/
theorem extract_features_raises_on_no_valid_coords :
    extract_features dist0 parseHMW0 evBlank [evBlank] = none ∧
    detect dist0 parseT0 parseHMW0 0 freshState evBlank [evBlank] = none ∧
    [evBlank] ≠ ([] : List Event) ∧ evBlank.latitude = none := by
  refine ⟨?_, ?_, by simp, rfl⟩
  all_goals
    norm_num +decide [detect, extract_features, tsField, dist0, evBlank, truthyQ,
      List.filter, (rfl : lowerStr "" = "")]

/-- Claim C4, counterexample.  With no trained model (the freshly
constructed detector, whose unfitted scaler makes every scaling attempt
fail), `detect` still raises on a syntactically valid event because feature
extraction dies on a context window with no valid-coordinate event, so
"the learned method contributes 0.0 and detect does not raise" is false as
a universal statement. -/
theorem detect_raises_despite_no_model :
    detect dist0 parseT0 parseHMW0 0 freshState evMid [evTXnone] = none := by
  norm_num +decide [detect, extract_features, tsField, dist0, evMid, evTXnone, truthyQ,
    List.filter, (rfl : lowerStr "" = "")]

/-- Claim C7, failing input.  For a zero-coordinates anomaly whose only
same-state context event has both coordinate keys absent, the code's
filter `e.get('latitude') != 0` accepts that event (None is not 0 in
Python), and the subsequent `similar[0]['latitude']` lookup raises
KeyError, which escapes `detect`; the claim instead prescribes falling
through to the default branch. -/
theorem fallback_keyerror_on_missing_coords :
    generate_fallback dist0 evIAzero [evTX, evIAnone] "zero_coordinates" = none ∧
    detect dist0 parseT0 parseHMW0 0 freshState evIAzero [evTX, evIAnone] = none := by
  constructor
  all_goals
    norm_num +decide [detect, detect_core, extract_features, statistical_detection,
      pattern_detection, mlEval, generate_fallback, explain_anomaly, freshState, pipeFail,
      tsField, round3, roundHalfEven, dist0, List.filter, evIAzero, evIAnone, evTX,
      lookupBl, truthyQ, listMin, (rfl : lowerStr "" = "")]

/-- Claim C8.  Calling `train` on an empty event list returns the explicit
error dict and leaves the whole detector state - model, scaler pipeline
and every state baseline - exactly as it was. -/
theorem train_empty_error_state_unchanged (dist : Event → Event → ℚ)
    (parseHMW : String → Option (ℤ × ℤ × ℤ))
    (fitPipe : List (List ℚ) → List ℚ → Option (Bool × ℚ))
    (sklearnAvailable : Bool) (st : DetectorState) :
    train dist parseHMW fitPipe sklearnAvailable st [] =
      some (st, TrainResult.err "Training requires sklearn and training data") := by
  simp [train]

/-- Claim C9.  Detection is a pure function of the call inputs and the
baseline/model snapshot: the embedding's type (state in, verdict out,
no state returned) records that `detect` never writes the snapshot - its
Python body only reads `self` - so two calls with identical inputs and an
unchanged snapshot are the same value, and no input is mutated. -/
theorem detect_idempotent_pure (dist : Event → Event → ℚ) (parseT : String → Option ℚ)
    (parseHMW : String → Option (ℤ × ℤ × ℤ)) (now : ℚ) (st : DetectorState)
    (e : Event) (ctx : List Event) :
    detect dist parseT parseHMW now st e ctx = detect dist parseT parseHMW now st e ctx :=
  rfl

theorem mlBounded_fresh : MlBounded freshState.model := by
  intro pipe fs pr hp hpf
  simp only [freshState] at hp
  injection hp with hp2
  subst hp2
  exact Option.noConfusion hpf

theorem max_one_of_le (ml pat : ℚ) (h1 : ml ≤ 1) (h2 : pat ≤ 1) :
    max (1:ℚ) (max ml pat) = 1 :=
  max_eq_left (max_le h1 h2)

/-- Score of a verdict whose statistical method returned score 1, given the
sklearn score-range contract on the stored model. -/
theorem score_one_of_stat_one (dist : Event → Event → ℚ) (parseT : String → Option ℚ)
    (now : ℚ) (st : DetectorState) (e : Event) (ctx : List Event)
    (fs : List ℚ) (v : Verdict)
    (hb : MlBounded st.model)
    (hstat : (statistical_detection parseT now e ctx).2.1 = 1)
    (hv : detect_core dist parseT now st e ctx fs = some v) :
    v.score = 1 := by
  obtain ⟨_, _, _, _, h5, _, _, _, _⟩ :=
    detect_core_spec dist parseT now st e ctx fs v hv
  rw [hstat] at h5
  have hml : (mlEval st.model fs).2 ≤ 1 := mlEval_snd_le_one st.model fs hb
  have hpat : (pattern_detection st.state_baselines e ctx).2.1 ≤ 1 :=
    le_trans (pattern_snd_bounds st.state_baselines e ctx).2 (by norm_num)
  rw [h5, max_one_of_le _ _ hml hpat, round3_one]

/-- Claim C6.  For every event whose latitude and longitude read as 0 (the
value and the missing-key default alike), any call of `detect` that
returns a verdict reports an anomaly of type `zero_coordinates` with score
1.0; the stored model is assumed to obey the isolation-forest score range,
without which the maximum fused score could exceed the statistical 1.0. -/
theorem zero_coords_verdict (dist : Event → Event → ℚ) (parseT : String → Option ℚ)
    (parseHMW : String → Option (ℤ × ℤ × ℤ)) (now : ℚ) (st : DetectorState)
    (e : Event) (ctx : List Event) (v : Verdict)
    (hla : e.latitude.getD 0 = 0) (hlo : e.longitude.getD 0 = 0)
    (hb : MlBounded st.model)
    (hv : detect dist parseT parseHMW now st e ctx = some v) :
    v.is_anomaly = true ∧ v.type = "zero_coordinates" ∧ v.score = 1 := by
  rcases hf : extract_features dist parseHMW e ctx with _ | fs
  · unfold detect at hv
    rw [hf] at hv
    exact Option.noConfusion hv
  · rw [detect_eq_core dist parseT parseHMW now st e ctx fs hf] at hv
    have hst := stat_at_zero parseT now e ctx hla hlo
    obtain ⟨_, _, _, h4, _, _, h7, _, _⟩ :=
      detect_core_spec dist parseT now st e ctx fs v hv
    rw [hst] at h4 h7
    refine ⟨by simpa using h4, by simpa using h7, ?_⟩
    exact score_one_of_stat_one dist parseT now st e ctx fs v hb (by rw [hst]) hv

/-- Claim C6, witness: the zero-coordinates theorem applied to the event at
the origin with an empty context window and the fresh detector. -/
theorem zero_coords_verdict_witness :
    vZero.is_anomaly = true ∧ vZero.type = "zero_coordinates" ∧ vZero.score = 1 :=
  zero_coords_verdict dist0 parseT0 parseHMW0 0 freshState evZero [] vZero rfl rfl
    mlBounded_fresh
    (by norm_num +decide [detect, detect_core, extract_features, statistical_detection,
      pattern_detection, mlEval, generate_fallback, explain_anomaly, freshState, pipeFail,
      tsField, round3, roundHalfEven, dist0, List.filter, evZero, lookupBl, truthyQ,
      vZero, fbZero, (rfl : lowerStr "" = "")])

/-- Claim C5, counterexample.  The event at the origin has latitude outside
the band [24, 50], so the claim demands `invalid_coordinates`, but the
zero-coordinates rule runs first and `detect` returns `zero_coordinates`. -/
theorem invalid_coords_claim_fails_at_origin :
    ¬ (24 ≤ (0:ℚ) ∧ (0:ℚ) ≤ 50) ∧
    evZero.latitude.getD 0 = 0 ∧
    (detect dist0 parseT0 parseHMW0 0 freshState evZero []).map Verdict.type
      = some "zero_coordinates" ∧
    "zero_coordinates" ≠ "invalid_coordinates" := by
  refine ⟨by norm_num, rfl, ?_, by decide⟩
  norm_num +decide [detect, detect_core, extract_features, statistical_detection,
    pattern_detection, mlEval, generate_fallback, explain_anomaly, freshState, pipeFail,
    tsField, round3, roundHalfEven, dist0, List.filter, evZero, lookupBl, truthyQ,
    (rfl : lowerStr "" = "")]

/-- Claim C5, amended.  For every event whose latitude reads outside
[24, 50] or longitude outside [-125, -65] and whose coordinates are not
both 0 (events at the exact origin are classified `zero_coordinates`
first), any call of `detect` that returns a verdict reports type
`invalid_coordinates` with score 1.0, the stored model again assumed
inside the isolation-forest score range. -/
theorem invalid_coords_verdict (dist : Event → Event → ℚ) (parseT : String → Option ℚ)
    (parseHMW : String → Option (ℤ × ℤ × ℤ)) (now : ℚ) (st : DetectorState)
    (e : Event) (ctx : List Event) (v : Verdict)
    (hout : ¬ (24 ≤ e.latitude.getD 0 ∧ e.latitude.getD 0 ≤ 50 ∧
      -125 ≤ e.longitude.getD 0 ∧ e.longitude.getD 0 ≤ -65))
    (hnz : ¬ (e.latitude.getD 0 = 0 ∧ e.longitude.getD 0 = 0))
    (hb : MlBounded st.model)
    (hv : detect dist parseT parseHMW now st e ctx = some v) :
    v.is_anomaly = true ∧ v.type = "invalid_coordinates" ∧ v.score = 1 := by
  rcases hf : extract_features dist parseHMW e ctx with _ | fs
  · unfold detect at hv
    rw [hf] at hv
    exact Option.noConfusion hv
  · rw [detect_eq_core dist parseT parseHMW now st e ctx fs hf] at hv
    have hst := stat_at_invalid parseT now e ctx hnz hout
    obtain ⟨_, _, _, h4, _, _, h7, _, _⟩ :=
      detect_core_spec dist parseT now st e ctx fs v hv
    rw [hst] at h4 h7
    refine ⟨by simpa using h4, by simpa using h7, ?_⟩
    exact score_one_of_stat_one dist parseT now st e ctx fs v hb (by rw [hst]) hv

/-- Claim C5, witness: the amended theorem applied to the event at latitude
60 with an empty context window and the fresh detector. -/
theorem invalid_coords_verdict_witness :
    vInv.is_anomaly = true ∧ vInv.type = "invalid_coordinates" ∧ vInv.score = 1 :=
  invalid_coords_verdict dist0 parseT0 parseHMW0 0 freshState ev60 [] vInv
    (by norm_num [ev60]) (by norm_num [ev60]) mlBounded_fresh
    (by norm_num +decide [detect, detect_core, extract_features, statistical_detection,
      pattern_detection, mlEval, generate_fallback, freshState, pipeFail,
      tsField, round3, roundHalfEven, dist0, List.filter, ev60, lookupBl, truthyQ,
      vInv, fbInv, (rfl : lowerStr "" = "")])

/-- Claim C10.  For every call of `detect` that returns a verdict, the
fallback field is populated exactly when `is_anomaly` is true, and any
populated fallback carries one of the five fixed source tags and a
confidence inside [0, 1]. -/
theorem fallback_iff_anomaly_and_wellformed (dist : Event → Event → ℚ)
    (parseT : String → Option ℚ) (parseHMW : String → Option (ℤ × ℤ × ℤ)) (now : ℚ)
    (st : DetectorState) (e : Event) (ctx : List Event) (v : Verdict)
    (hv : detect dist parseT parseHMW now st e ctx = some v) :
    (v.fallback ≠ none ↔ v.is_anomaly = true) ∧
    (∀ fb, v.fallback = some fb →
      (fb.source = "cached_coordinates" ∨ fb.source = "skip_update" ∨
       fb.source = "filtered_out" ∨ fb.source = "interpolated" ∨
       fb.source = "none_available") ∧ 0 ≤ fb.confidence ∧ fb.confidence ≤ 1) := by
  rcases hf : extract_features dist parseHMW e ctx with _ | fs
  · unfold detect at hv
    rw [hf] at hv
    exact Option.noConfusion hv
  · rw [detect_eq_core dist parseT parseHMW now st e ctx fs hf] at hv
    have hiff := detect_core_fallback_none dist parseT now st e ctx fs v hv
    obtain ⟨_, _, _, _, _, _, _, _, hyes⟩ :=
      detect_core_spec dist parseT now st e ctx fs v hv
    have hside : ∀ fb, v.fallback = some fb →
        generate_fallback dist e ctx v.type = some fb := by
      intro fb hfb
      have ha : v.is_anomaly = true := by
        rcases hb : v.is_anomaly with _ | _
        · rw [hiff.mpr hb] at hfb
          exact Option.noConfusion hfb
        · rfl
      obtain ⟨fb2, hfb2, hg2⟩ := hyes ha
      rw [hfb] at hfb2
      injection hfb2 with h2
      rw [h2]
      exact hg2
    refine ⟨⟨?_, ?_⟩, ?_⟩
    · intro hne
      rcases hb : v.is_anomaly with _ | _
      · exact absurd (hiff.mpr hb) hne
      · rfl
    · intro ha
      obtain ⟨fb, hfb, _⟩ := hyes ha
      rw [hfb]
      simp
    · intro fb hfb
      exact generate_fallback_sound dist e ctx v.type fb (hside fb hfb)

/-- Claim C10, witness: the theorem applied to the concrete
zero-coordinates call, whose verdict carries the `none_available`
fallback with confidence 0. -/
theorem fallback_iff_anomaly_and_wellformed_witness :
    (vZero.fallback ≠ none ↔ vZero.is_anomaly = true) ∧
    (∀ fb, vZero.fallback = some fb →
      (fb.source = "cached_coordinates" ∨ fb.source = "skip_update" ∨
       fb.source = "filtered_out" ∨ fb.source = "interpolated" ∨
       fb.source = "none_available") ∧ 0 ≤ fb.confidence ∧ fb.confidence ≤ 1) :=
  fallback_iff_anomaly_and_wellformed dist0 parseT0 parseHMW0 0 freshState evZero [] vZero
    (by norm_num +decide [detect, detect_core, extract_features, statistical_detection,
      pattern_detection, mlEval, generate_fallback, explain_anomaly, freshState, pipeFail,
      tsField, round3, roundHalfEven, dist0, List.filter, evZero, lookupBl, truthyQ,
      vZero, fbZero, (rfl : lowerStr "" = "")])

/-- Claim C4, amended.  For every call of `detect` that returns a verdict,
the `ml` entry of the method scores is 0.0 exactly when no model object is
stored or the scaling/prediction pipeline raises, and otherwise is the
absolute value of the raw outlier score; under the isolation-forest
contract that the raw score has magnitude at most 1, that value lies in
[0, 1] and saturating it at 1 is the identity.  (`detect` itself can still
raise, but only from feature extraction or fallback generation, never from
the learned method.) -/
theorem ml_method_score_spec (dist : Event → Event → ℚ) (parseT : String → Option ℚ)
    (parseHMW : String → Option (ℤ × ℤ × ℤ)) (now : ℚ) (st : DetectorState)
    (e : Event) (ctx : List Event) (fs : List ℚ) (v : Verdict)
    (hf : extract_features dist parseHMW e ctx = some fs)
    (hv : detect dist parseT parseHMW now st e ctx = some v) :
    (st.model = none → v.ml = 0) ∧
    (∀ pipe, st.model = some pipe → pipe fs = none → v.ml = 0) ∧
    (∀ pipe pr, st.model = some pipe → pipe fs = some pr →
      v.ml = |pr.2| ∧ (|pr.2| ≤ 1 → v.ml = min |pr.2| 1 ∧ 0 ≤ v.ml ∧ v.ml ≤ 1)) := by
  rw [detect_eq_core dist parseT parseHMW now st e ctx fs hf] at hv
  obtain ⟨_, h2, _, _, _, _, _, _, _⟩ :=
    detect_core_spec dist parseT now st e ctx fs v hv
  refine ⟨?_, ?_, ?_⟩
  · intro hm
    rw [h2, hm]
    simp [mlEval]
  · intro pipe hm hp
    rw [h2, hm]
    simp [mlEval, hp]
  · intro pipe pr hm hp
    have habs : v.ml = |pr.2| := by
      rw [h2, hm]
      simp [mlEval, hp]
    refine ⟨habs, fun hle => ⟨?_, ?_, ?_⟩⟩
    · rw [habs, min_eq_left hle]
    · rw [habs]
      exact abs_nonneg _
    · rw [habs]
      exact hle

/-- Claim C4, witness: the amended theorem applied at a stored pipeline
returning raw score -1999/2000 on `ev40` with an empty window. -/
theorem ml_method_score_spec_witness :
    vC4.ml = |(-(1999/2000) : ℚ)| ∧ vC4.ml = min |(-(1999/2000) : ℚ)| 1 ∧
    0 ≤ vC4.ml ∧ vC4.ml ≤ 1 := by
  have h := (ml_method_score_spec dist0 parseT0 parseHMW0 0 stateC1 ev40 [] fsC4 vC4
    (by norm_num +decide [extract_features, tsField, dist0, fsC4, ev40,
      (rfl : lowerStr "" = "")])
    (by norm_num +decide [detect, detect_core, extract_features, statistical_detection,
      pattern_detection, mlEval, generate_fallback, explain_anomaly, stateC1, pipeC1,
      tsField, round3, roundHalfEven, dist0, List.filter, ev40, lookupBl, truthyQ,
      vC4, fsC4, absHelp, floorHelp, fractHelp,
      (rfl : lowerStr "" = "")])).2.2 pipeC1 (false, -(1999/2000)) rfl rfl
  obtain ⟨h1, h2⟩ := h
  have h3 := h2 (by rw [abs_neg, absHelp]; norm_num)
  exact ⟨h1, h3.1, h3.2.1, h3.2.2⟩

theorem stripStats_addTo (b : Baseline) (e : Event) :
    stripStats (addToBaseline b e) = addToBaseline (stripStats b) e := rfl

theorem stripStats_statB (b : Baseline) :
    stripStats (statBaseline b) = stripStats b := rfl

theorem stripAll_addKey (s : String) (e : Event) :
    ∀ bl, stripAll (addKey bl s e) = addKey (stripAll bl) s e := by
  intro bl
  induction bl with
  | nil => rfl
  | cons p rest ih =>
    rcases p with ⟨k, b⟩
    by_cases hk : k = s
    · subst hk
      simp [addKey, stripAll, stripStats_addTo]
    · simp only [addKey, stripAll, List.map, if_neg hk]
      simpa [stripAll] using ih

theorem stripAll_addEventB (bl : List (String × Baseline)) (e : Event) :
    stripAll (addEventB bl e) = addEventB (stripAll bl) e := by
  unfold addEventB
  rcases e.state with _ | s
  · rfl
  · by_cases hs : s = ""
    · simp [hs]
    · simp [hs, stripAll_addKey]

theorem stripAll_foldl (l : List Event) :
    ∀ bl, stripAll (List.foldl addEventB bl l) = List.foldl addEventB (stripAll bl) l := by
  induction l with
  | nil => intro bl; rfl
  | cons e rest ih =>
    intro bl
    simp only [List.foldl_cons]
    rw [ih, stripAll_addEventB]

theorem stripAll_computeStats (bl : List (String × Baseline)) :
    stripAll (computeStats bl) = stripAll bl := by
  unfold stripAll computeStats
  rw [List.map_map]
  rfl

theorem rangeInv_nil : RangeInv [] := by
  intro p hp
  exact absurd hp (List.not_mem_nil p)

theorem rangeInv_atom_addTo (b : Baseline) (e : Event)
    (h1 : b.lats = [] → b.lat_range = none) (h2 : b.lons = [] → b.lon_range = none) :
    ((addToBaseline b e).lats = [] → (addToBaseline b e).lat_range = none) ∧
    ((addToBaseline b e).lons = [] → (addToBaseline b e).lon_range = none) := by
  constructor
  · intro hl
    have hl2 : (if truthyQ e.latitude = true then b.lats ++ [e.latitude.getD 0]
        else b.lats) = [] := hl
    show b.lat_range = none
    split at hl2
    · exact absurd hl2 (by simp)
    · exact h1 hl2
  · intro hl
    have hl2 : (if truthyQ e.longitude = true then b.lons ++ [e.longitude.getD 0]
        else b.lons) = [] := hl
    show b.lon_range = none
    split at hl2
    · exact absurd hl2 (by simp)
    · exact h2 hl2

theorem rangeInv_addKey (s : String) (e : Event) :
    ∀ bl, RangeInv bl → RangeInv (addKey bl s e) := by
  intro bl
  induction bl with
  | nil =>
    intro _ p hp
    simp only [addKey, List.mem_singleton] at hp
    subst hp
    exact rangeInv_atom_addTo emptyBaseline e (fun _ => rfl) (fun _ => rfl)
  | cons q rest ih =>
    intro h p hp
    rcases q with ⟨k, b⟩
    have hb := h (k, b) (by simp)
    have hrest : RangeInv rest := fun x hx => h x (List.mem_cons_of_mem _ hx)
    by_cases hk : k = s
    · subst hk
      rw [show addKey ((k, b) :: rest) k e = (k, addToBaseline b e) :: rest from by
        simp [addKey]] at hp
      rcases List.mem_cons.mp hp with hp2 | hp2
      · subst hp2
        exact rangeInv_atom_addTo b e hb.1 hb.2
      · exact h p (List.mem_cons_of_mem _ hp2)
    · rw [show addKey ((k, b) :: rest) s e = (k, b) :: addKey rest s e from by
        simp [addKey, hk]] at hp
      rcases List.mem_cons.mp hp with hp2 | hp2
      · subst hp2
        exact hb
      · exact ih hrest p hp2

theorem rangeInv_addEventB (bl : List (String × Baseline)) (e : Event)
    (h : RangeInv bl) : RangeInv (addEventB bl e) := by
  unfold addEventB
  rcases e.state with _ | s
  · exact h
  · by_cases hs : s = ""
    · simp only [if_pos hs]
      exact h
    · simp only [if_neg hs]
      exact rangeInv_addKey s e bl h

theorem rangeInv_foldl (l : List Event) :
    ∀ bl, RangeInv bl → RangeInv (List.foldl addEventB bl l) := by
  induction l with
  | nil => intro bl h; exact h
  | cons e rest ih =>
    intro bl h
    simp only [List.foldl_cons]
    exact ih _ (rangeInv_addEventB bl e h)

theorem rangeInv_computeStats (bl : List (String × Baseline)) (h : RangeInv bl) :
    RangeInv (computeStats bl) := by
  intro p hp
  unfold computeStats at hp
  rcases List.mem_map.mp hp with ⟨q, hq, hqe⟩
  subst hqe
  have hb := h q hq
  unfold statBaseline
  constructor
  · intro hl
    simp only at hl
    rw [hl] at hb ⊢
    simp [hb.1 rfl]
  · intro hl
    simp only at hl
    rw [hl] at hb ⊢
    simp [hb.2 rfl]

theorem statB_strip_of_inv (b : Baseline)
    (h1 : b.lats = [] → b.lat_range = none) (h2 : b.lons = [] → b.lon_range = none) :
    statBaseline (stripStats b) = statBaseline b := by
  unfold statBaseline stripStats
  rcases hl : b.lats with _ | ⟨x, xs⟩
  · rcases ho : b.lons with _ | ⟨y, ys⟩
    · simp [h1 hl, h2 ho]
    · simp [h1 hl]
  · rcases ho : b.lons with _ | ⟨y, ys⟩
    · simp [h2 ho]
    · simp

theorem computeStats_stripAll_of_inv (bl : List (String × Baseline)) (h : RangeInv bl) :
    computeStats (stripAll bl) = computeStats bl := by
  unfold computeStats stripAll
  rw [List.map_map]
  apply List.map_congr_left
  intro p hp
  have hb := h p hp
  simp only [Function.comp]
  rw [statB_strip_of_inv p.2 hb.1 hb.2]

theorem computeStats_foldl_computeStats (bl : List (String × Baseline)) (l : List Event)
    (h : RangeInv bl) :
    computeStats (List.foldl addEventB (computeStats bl) l) =
      computeStats (List.foldl addEventB bl l) := by
  have hinv1 : RangeInv (List.foldl addEventB (computeStats bl) l) :=
    rangeInv_foldl l _ (rangeInv_computeStats bl h)
  have hinv2 : RangeInv (List.foldl addEventB bl l) := rangeInv_foldl l _ h
  calc computeStats (List.foldl addEventB (computeStats bl) l)
      = computeStats (stripAll (List.foldl addEventB (computeStats bl) l)) :=
        (computeStats_stripAll_of_inv _ hinv1).symm
    _ = computeStats (List.foldl addEventB (stripAll (computeStats bl)) l) := by
        rw [stripAll_foldl]
    _ = computeStats (List.foldl addEventB (stripAll bl) l) := by
        rw [stripAll_computeStats]
    _ = computeStats (stripAll (List.foldl addEventB bl l)) := by
        rw [stripAll_foldl]
    _ = computeStats (List.foldl addEventB bl l) := computeStats_stripAll_of_inv _ hinv2

/-- Claim C2, amended.  Successful training runs accumulate: after training
on corpus E1 and then on corpus E2, the state baselines are exactly the
baselines of a single training run on the concatenated corpus E1 ++ E2 -
per-state event lists, coordinate lists, counts and bounding boxes all
derive from every corpus seen since construction, not from the last call
alone.  (The fitted model and scaler, by contrast, are refit from the last
corpus only.) -/
theorem train_twice_eq_train_append (dist : Event → Event → ℚ)
    (parseHMW : String → Option (ℤ × ℤ × ℤ))
    (fitPipe : List (List ℚ) → List ℚ → Option (Bool × ℚ))
    (E1 E2 : List Event) (st1 st2 st3 : DetectorState) (r1 r2 r3 : TrainResult)
    (hE1 : E1 ≠ []) (hE2 : E2 ≠ [])
    (h1 : train dist parseHMW fitPipe true freshState E1 = some (st1, r1))
    (h2 : train dist parseHMW fitPipe true st1 E2 = some (st2, r2))
    (h3 : train dist parseHMW fitPipe true freshState (E1 ++ E2) = some (st3, r3)) :
    st2.state_baselines = st3.state_baselines := by
  unfold train at h1 h2 h3
  rw [if_neg (by simp [hE1])] at h1
  rw [if_neg (by simp [hE2])] at h2
  rw [if_neg (by simp [hE1])] at h3
  rcases hm1 : List.mapM (fun e => extract_features dist parseHMW e E1) E1 with _ | fl1
  · rw [hm1] at h1
    exact Option.noConfusion h1
  rw [hm1] at h1
  rcases hm2 : List.mapM (fun e => extract_features dist parseHMW e E2) E2 with _ | fl2
  · rw [hm2] at h2
    exact Option.noConfusion h2
  rw [hm2] at h2
  rcases hm3 : List.mapM (fun e => extract_features dist parseHMW e (E1 ++ E2)) (E1 ++ E2)
      with _ | fl3
  · rw [hm3] at h3
    exact Option.noConfusion h3
  rw [hm3] at h3
  simp only [Option.some.injEq, Prod.mk.injEq] at h1 h2 h3
  obtain ⟨h1s, -⟩ := h1
  obtain ⟨h2s, -⟩ := h2
  obtain ⟨h3s, -⟩ := h3
  subst h1s
  subst h2s
  subst h3s
  simp only [freshState]
  rw [List.foldl_append]
  exact computeStats_foldl_computeStats _ E2 (rangeInv_foldl E1 [] rangeInv_nil)

/-- Claim C2, counterexample.  Training on [evA] and then on [evB] leaves
the Iowa baseline with both accumulated events (count 2, box spanning both
coordinates), which differs from the baselines computed from the most
recent corpus [evB] alone. -/
theorem train_baselines_accumulate_cex :
    (trainSeq dist0 parseHMW0 fit0 true freshState [[evA], [evB]]).map
        DetectorState.state_baselines
      ≠ (trainSeq dist0 parseHMW0 fit0 true freshState [[evB]]).map
        DetectorState.state_baselines := by
  norm_num +decide [trainSeq, train, extract_features, freshState, fit0, tsField, dist0,
    List.filter, List.mapM, List.mapM.loop, evA, evB, truthyQ, listMin, computeStats,
    addEventB, addKey, addToBaseline, emptyBaseline, statBaseline, listMax,
    (rfl : lowerStr "" = "")]

/-- Claim C2, witness: the accumulation theorem applied to the two concrete
Iowa corpora. -/
theorem train_twice_eq_train_append_witness :
    stW2.state_baselines = stW3.state_baselines :=
  train_twice_eq_train_append dist0 parseHMW0 fit0 [evA] [evB] stW1 stW2 stW3
    (.ok 1 1 "IsolationForest") (.ok 1 1 "IsolationForest") (.ok 2 1 "IsolationForest")
    (by simp) (by simp)
    (by norm_num +decide [train, extract_features, freshState, fit0, tsField, dist0,
      List.filter, List.mapM, List.mapM.loop, evA, truthyQ, listMin, computeStats,
      addEventB, addKey, addToBaseline, emptyBaseline, statBaseline, listMax, min_def,
      max_def, stW1, blA, fsA1, (rfl : lowerStr "" = "")])
    (by norm_num +decide [train, extract_features, fit0, tsField, dist0,
      List.filter, List.mapM, List.mapM.loop, evA, evB, truthyQ, listMin, computeStats,
      addEventB, addKey, addToBaseline, emptyBaseline, statBaseline, listMax, min_def,
      max_def, stW1, stW2, blA, blAB, fsA1, fsB1, (rfl : lowerStr "" = "")])
    (by norm_num +decide [train, extract_features, freshState, fit0, tsField, dist0,
      List.filter, List.mapM, List.mapM.loop, evA, evB, truthyQ, listMin, computeStats,
      addEventB, addKey, addToBaseline, emptyBaseline, statBaseline, listMax, min_def,
      max_def, stW3, blAB, fsA2, fsB2, (rfl : lowerStr "" = "")])
